import Mathlib

/-!
Verification of the TRACE AI backend (`backend/main.py`), a FastAPI service
with four POST analysis endpoints and one GET health endpoint.

Shallow embedding conventions:
* Python `str` is modelled as Lean `String`; Python indexing/slicing is by
  code point, matching `String.data : List Char`.
* The chat-completion adapter (`client.chat.completions.create`) is modelled
  as a function `AICall → Except String String`: `Except.error e` models the
  call raising an exception whose `str(...)` is `e`; `Except.ok c` models a
  response whose `choices[0].message.content` is `c`.
* The page fetch (`httpx` GET + `raise_for_status`) is modelled as a function
  `String → FetchResult`: `httpError e` models an `httpx.HTTPError` (timeout,
  DNS/connection failure, or non-2xx status) handled by the inner
  `except httpx.HTTPError`; `otherError e` models any other exception at the
  fetch stage, which falls through to the outer handler; `success doc`
  models a 2xx body already parsed by BeautifulSoup into a node tree.
* Each route handler is a total Lean function of its request plus these
  effect parameters, returning the `ExplanationResponse` it serializes.
-/

namespace TraceAI

/-- Model for AI explanation responses (`ExplanationResponse(BaseModel)`):
`explanation: str`, `success: bool`, `error: str = None`. -/
structure ExplanationResponse where
  explanation : String
  success : Bool
  error : Option String
deriving DecidableEq, Repr

/-- Base model for explanation requests (`ExplanationRequest(BaseModel): pass`);
the two fixed-prompt endpoints take this empty body. -/
structure ExplanationRequest where
deriving DecidableEq, Repr

/-- Model for data request concern analysis (`DataRequestConcernRequest`). -/
structure DataRequestConcernRequest where
  form_purpose : String
  form_html : String
deriving DecidableEq, Repr

/-- Model for privacy policy analysis (`PrivacyPolicyRequest`). -/
structure PrivacyPolicyRequest where
  policy_url : String
deriving DecidableEq, Repr

/-- One role-tagged message of a chat-completion request. -/
structure ChatMessage where
  role : String
  content : String
deriving DecidableEq, Repr

/-- The arguments a handler passes to `client.chat.completions.create`:
model name, message list, `max_tokens`, and `temperature` (kept as an exact
rational; the literals in the source are decimal constants). -/
structure AICall where
  model : String
  messages : List ChatMessage
  max_tokens : Nat
  temperature : Rat
deriving DecidableEq, Repr

/-- Python `s[:n]`: the first `n` code points of `s`. -/
def pyTake (s : String) (n : Nat) : String :=
  ⟨s.data.take n⟩

/-- A parsed HTML document as BeautifulSoup exposes it to this code:
a tree of text nodes (`NavigableString`s) and named elements with children. -/
inductive HtmlNode where
  | text : String → HtmlNode
  | element : String → List HtmlNode → HtmlNode
deriving Repr

/-- Characters Python `str.strip()` removes (Unicode whitespace; the set
relevant to text content, including NBSP and the Unicode line/paragraph
separators). -/
def pyIsSpace (c : Char) : Bool :=
  c = ' ' || c = '\t' || c = '\n' || c = '\r' || c = '\x0b' || c = '\x0c' ||
  c = '\x1c' || c = '\x1d' || c = '\x1e' || c = '\x1f' || c = '\x85' ||
  c = '\xa0' || c = ' ' || (' ' ≤ c && c ≤ ' ') ||
  c = ' ' || c = ' ' || c = ' ' || c = ' ' || c = '　'

/-- Line boundaries recognized by Python `str.splitlines()` (besides the
`"\r\n"` pair, which is handled as a single boundary). -/
def pyIsLineBreak (c : Char) : Bool :=
  c = '\n' || c = '\r' || c = '\x0b' || c = '\x0c' || c = '\x1c' ||
  c = '\x1d' || c = '\x1e' || c = '\x85' || c = ' ' || c = ' '

/-- Worker for `pySplitlines`: `acc` holds the current line reversed. -/
def pySplitlinesAux : List Char → List Char → List String
  | [], acc => if acc.isEmpty then [] else [⟨acc.reverse⟩]
  | '\r' :: '\n' :: rest, acc => ⟨acc.reverse⟩ :: pySplitlinesAux rest []
  | c :: rest, acc =>
    if pyIsLineBreak c then ⟨acc.reverse⟩ :: pySplitlinesAux rest []
    else pySplitlinesAux rest (c :: acc)

/-- Python `s.splitlines()`: split at line boundaries, boundary characters
dropped, no trailing empty line for a trailing boundary. -/
def pySplitlines (s : String) : List String :=
  pySplitlinesAux s.data []

/-- Python `s.strip()`: remove leading and trailing whitespace. -/
def pyStrip (s : String) : String :=
  ⟨((s.data.dropWhile pyIsSpace).reverse.dropWhile pyIsSpace).reverse⟩

/-- The text clean-up in `analyze_privacy_policy` (lines 240-242):
`lines = (line.strip() for line in text_content.splitlines())`,
`chunks = (phrase.strip() for line in lines for phrase in line.split("  "))`,
`text_content = ' '.join(chunk for chunk in chunks if chunk)`. -/
def clean_text (text_content : String) : String :=
  let lines := (pySplitlines text_content).map pyStrip
  let chunks := (lines.map (fun line => (line.splitOn "  ").map pyStrip)).flatten
  String.intercalate " " (chunks.filter (fun chunk => !chunk.isEmpty))

/-- `for script in soup(["script", "style"]): script.decompose()` —
remove every element whose tag is in `tags`, together with its whole
subtree, from a forest of nodes. -/
def stripF (tags : List String) : List HtmlNode → List HtmlNode
  | [] => []
  | HtmlNode.text s :: rest => HtmlNode.text s :: stripF tags rest
  | HtmlNode.element name children :: rest =>
    if tags.contains name then stripF tags rest
    else HtmlNode.element name (stripF tags children) :: stripF tags rest

/-- `soup.get_text()`: concatenate all text nodes of a forest in document
order, with no separator. -/
def getTextF : List HtmlNode → String
  | [] => ""
  | HtmlNode.text s :: rest => s ++ getTextF rest
  | HtmlNode.element _ children :: rest => getTextF children ++ getTextF rest

/-- The extraction pipeline of `analyze_privacy_policy` on a parsed document:
decompose `script`/`style` elements, then `get_text()`. -/
def extract_text (doc : HtmlNode) : String :=
  getTextF (stripF ["script", "style"] [doc])

/-- Spec-side text extraction written directly from the spec sentence
"the extracted text passed onward must not contain the contents of
`<script>` or `<style>` tags": collect text nodes, contributing nothing
for any element whose tag is in `tags`. Compared against `extract_text`. -/
def getTextOutsideF (tags : List String) : List HtmlNode → String
  | [] => ""
  | HtmlNode.text s :: rest => s ++ getTextOutsideF tags rest
  | HtmlNode.element name children :: rest =>
    (if tags.contains name then "" else getTextOutsideF tags children) ++
      getTextOutsideF tags rest

/-- Outcome of the bounded-timeout HTTP GET plus `raise_for_status` in
`analyze_privacy_policy`. -/
inductive FetchResult where
  /-- an `httpx.HTTPError` was raised (timeout, DNS/connection failure,
  or a non-2xx status via `raise_for_status`) -/
  | httpError : String → FetchResult
  /-- some exception outside `httpx.HTTPError` was raised at this stage;
  it is caught only by the handler's outer `except Exception` -/
  | otherError : String → FetchResult
  /-- a 2xx response whose body BeautifulSoup parsed into this tree -/
  | success : HtmlNode → FetchResult

/-- The model name passed to every `client.chat.completions.create` call. -/
def geminiModel : String := "gemini-2.5-flash-preview-05-20"

/-- `GET /` (`health_check`): returns
`{"status": "healthy", "service": "TRACE AI Backend", "version": "1.0.0"}`.
It reads no input and touches neither the AI client nor the network, so it
is a closed constant of the embedding. -/
def health_check : List (String × String) :=
  [("status", "healthy"), ("service", "TRACE AI Backend"), ("version", "1.0.0")]

/-- The chat-completion request built by `explain_insecure_submission`
(lines 78-92); it mentions nothing from the request body. -/
def insecure_submission_call (_request : ExplanationRequest) : AICall :=
  ⟨geminiModel,
   [⟨"system", "You are a cybersecurity expert explaining risks to non-technical users. Use simple, clear language and avoid technical jargon."⟩,
    ⟨"user", "Explain in simple, non-technical terms why submitting a form over HTTP (instead of HTTPS) is dangerous. Focus on how this affects regular internet users. Keep it to 2-3 sentences and avoid technical jargon."⟩],
   10000, 7/10⟩

/-- Hardcoded fallback of `explain_insecure_submission` (lines 100-104). -/
def insecure_submission_fallback : String :=
  "When a form sends data over HTTP instead of HTTPS, your information travels " ++
  "unencrypted across the internet. This means anyone monitoring network traffic " ++
  "could see your personal details, passwords, or other sensitive information."

/-- `POST /explain/insecure_submission`: one fixed AI call; on success the
model text is returned verbatim, on any exception the hardcoded fallback is
returned with `success=True` and a prefixed diagnostic. -/
def explain_insecure_submission (request : ExplanationRequest)
    (ai : AICall → Except String String) : ExplanationResponse :=
  match ai (insecure_submission_call request) with
  | Except.ok content => ⟨content, true, none⟩
  | Except.error e =>
    ⟨insecure_submission_fallback, true,
     some ("AI service unavailable, using fallback explanation: " ++ e)⟩

/-- The chat-completion request built by `explain_password_insecure_form`
(lines 118-132); it mentions nothing from the request body. -/
def password_insecure_form_call (_request : ExplanationRequest) : AICall :=
  ⟨geminiModel,
   [⟨"system", "You are a cybersecurity expert explaining risks to non-technical users. Use simple, clear language and avoid technical jargon."⟩,
    ⟨"user", "Explain in simple terms why entering a password on an insecure (HTTP) form is extremely dangerous. Focus on what could happen to the user's password and accounts. Keep it to 2-3 sentences and use language that non-technical users can understand."⟩],
   10000, 7/10⟩

/-- Hardcoded fallback of `explain_password_insecure_form` (lines 140-144). -/
def password_insecure_form_fallback : String :=
  "Entering your password on an insecure form is extremely risky because hackers can easily " ++
  "intercept your password as it travels to the website. They could then use your password " ++
  "to access your accounts and steal your personal information or money."

/-- `POST /explain/password_insecure_form`: one fixed AI call; on success the
model text is returned verbatim, on any exception the hardcoded fallback is
returned with `success=True` and a prefixed diagnostic. -/
def explain_password_insecure_form (request : ExplanationRequest)
    (ai : AICall → Except String String) : ExplanationResponse :=
  match ai (password_insecure_form_call request) with
  | Except.ok content => ⟨content, true, none⟩
  | Except.error e =>
    ⟨password_insecure_form_fallback, true,
     some ("AI service unavailable, using fallback explanation: " ++ e)⟩

/-- `MAX_HTML_LENGTH = 10000` in `explain_data_request_concern`. -/
def MAX_HTML_LENGTH : Nat := 10000

/-- Lines 160-162 of `explain_data_request_concern`:
`truncated_html = request.form_html`;
`if len(request.form_html) > MAX_HTML_LENGTH: truncated_html =
request.form_html[:MAX_HTML_LENGTH] + "... [HTML truncated]"`. -/
def truncated_html (form_html : String) : String :=
  if form_html.length > MAX_HTML_LENGTH then
    pyTake form_html MAX_HTML_LENGTH ++ "... [HTML truncated]"
  else
    form_html

/-- The user message content of `explain_data_request_concern` (lines
181-186), an f-string embedding the (possibly truncated) HTML. -/
def data_request_user_content (truncated : String) : String :=
  "Please analyze the following HTML snippet of a web form:\n---HTML START---\n" ++
  truncated ++
  "\n---HTML END---\nDetermine the likely purpose of this form based on its HTML content. Then, identify any input fields or data requests within the HTML that seem unusual, excessive, or suspicious for the form's determined purpose.\nExplain your findings in simple, non-technical terms. If specific fields are suspicious, mention them and why. If the form seems reasonable for its purpose, state that."

/-- The chat-completion request built by `explain_data_request_concern`
(lines 164-191). -/
def data_request_concern_call (request : DataRequestConcernRequest) : AICall :=
  ⟨geminiModel,
   [⟨"system", "You are a privacy and security expert helping non-technical users understand data collection practices on web forms.\nYour task is to analyze the provided HTML of a web form.\nFirst, determine the likely purpose of the form based on its HTML content.\nThen, identify any input fields, labels, or data requests within the HTML that seem unusual, excessive, or suspicious for the form's determined purpose.\nExplain your findings in simple, clear, non-technical language.\nFocus on practical advice and what the user should consider.\nIf specific fields are suspicious, mention them and why.\nIf the form seems reasonable for its determined purpose, state that.\nKeep your explanation concise, ideally 2-4 sentences."⟩,
    ⟨"user", data_request_user_content (truncated_html request.form_html)⟩],
   10000, 7/10⟩

/-- Request-parameterized fallback of `explain_data_request_concern`
(lines 199-203): the caller's `form_purpose` is interpolated into a generic
caution template. -/
def data_request_concern_fallback (form_purpose : String) : String :=
  "When filling out a '" ++ form_purpose ++
  ("' form, always consider if the information asked is truly necessary for the service. " ++
   "Be extra careful with sensitive data like your SSN, financial details, or very personal information, especially if the site isn't well-known or doesn't clearly state how your data is used. " ++
   "If something feels off, it's better to be cautious and not submit the form.")

/-- `POST /explain/data_request_concern`: truncate oversized `form_html`,
send a templated prompt; on exception from the AI call return the
`form_purpose`-parameterized fallback with `success=True`. -/
def explain_data_request_concern (request : DataRequestConcernRequest)
    (ai : AICall → Except String String) : ExplanationResponse :=
  match ai (data_request_concern_call request) with
  | Except.ok content => ⟨content, true, none⟩
  | Except.error e =>
    ⟨data_request_concern_fallback request.form_purpose, true,
     some ("AI service unavailable, using fallback explanation: " ++ e)⟩

/-- Lines 245-246 of `analyze_privacy_policy`:
`if len(text_content) > 8000: text_content = text_content[:8000] +
"... [content truncated]"`. -/
def truncate_policy_text (text_content : String) : String :=
  if text_content.length > 8000 then
    pyTake text_content 8000 ++ "... [content truncated]"
  else
    text_content

/-- The user message content of the privacy-policy AI call (lines 260-271),
an f-string embedding the cleaned, truncated policy text. -/
def privacy_policy_user_content (text_content : String) : String :=
  "Please analyze this privacy policy and identify the main red flags or concerning practices that a regular internet user should be aware of. \n\nPrivacy Policy Text:\n" ++
  text_content ++
  "\n\nPlease provide a concise summary focusing on:\n1. How the company shares or sells user data\n2. What data they collect beyond what's necessary\n3. How long they keep user data\n4. Any concerning clauses about data usage\n\nFormat your response as bullet points in simple, non-technical language. Keep it to 3-4 key points maximum. If the policy seems reasonable, say so."

/-- The chat-completion request built by `analyze_privacy_policy`
(lines 251-276), parameterized by the cleaned, truncated policy text. -/
def analyze_privacy_policy_call (text_content : String) : AICall :=
  ⟨geminiModel,
   [⟨"system", "You are a privacy expert helping non-technical users understand privacy policies. Focus on identifying concerning practices in simple, clear language."⟩,
    ⟨"user", privacy_policy_user_content text_content⟩],
   30000, 7/10⟩

/-- Static explanation returned when the page fetch fails (line 224). -/
def unable_to_access_explanation : String :=
  "Unable to access the privacy policy. The link may be broken or the site may be blocking automated access."

/-- Static manual-review checklist fallback of `analyze_privacy_policy`
(lines 292-299). -/
def privacy_policy_fallback : String :=
  "Unable to analyze this privacy policy automatically. " ++
  "When reviewing privacy policies yourself, look for: " ++
  "• How they share your data with third parties " ++
  "• What data they collect beyond what's necessary for their service " ++
  "• How long they keep your information " ++
  "• Whether you can delete your data easily"

/-- `POST /analyze_privacy_policy`: fetch the URL (an `httpx.HTTPError`
returns the `success=False` "unable to access" response at once, before any
AI call); otherwise decompose `script`/`style`, extract and clean the text,
truncate to 8000 characters, and make the AI call. An exception from the AI
call is re-raised to the outer handler, which — like any other non-HTTP
exception — yields the static checklist fallback with `success=True`. -/
def analyze_privacy_policy (request : PrivacyPolicyRequest)
    (fetch : String → FetchResult)
    (ai : AICall → Except String String) : ExplanationResponse :=
  match fetch request.policy_url with
  | FetchResult.httpError e =>
    ⟨unable_to_access_explanation, false, some ("HTTP error: " ++ e)⟩
  | FetchResult.otherError e =>
    ⟨privacy_policy_fallback, true, some ("Analysis service unavailable: " ++ e)⟩
  | FetchResult.success doc =>
    let text_content := truncate_policy_text (clean_text (extract_text doc))
    match ai (analyze_privacy_policy_call text_content) with
    | Except.ok content => ⟨content, true, none⟩
    | Except.error e =>
      ⟨privacy_policy_fallback, true, some ("Analysis service unavailable: " ++ e)⟩

/-! ## Helper lemmas -/

/-- Decomposing the tagged elements and then extracting text is the same as
extracting text while skipping those elements. -/
theorem getTextF_stripF (tags : List String) :
    (ns : List HtmlNode) → getTextF (stripF tags ns) = getTextOutsideF tags ns
  | [] => by simp only [stripF, getTextF, getTextOutsideF]
  | HtmlNode.text s :: rest => by
    simp only [stripF, getTextF, getTextOutsideF, getTextF_stripF tags rest]
  | HtmlNode.element name children :: rest => by
    by_cases h : tags.contains name
    · simp only [stripF, getTextF, getTextOutsideF, h, if_pos, if_true,
        getTextF_stripF tags rest]
      exact (String.empty_append _).symm
    · simp only [stripF, getTextF, getTextOutsideF, h, if_neg, if_false,
        Bool.false_eq_true, getTextF_stripF tags children, getTextF_stripF tags rest]

/-- The request-parameterized fallback always has positive length. -/
theorem data_request_concern_fallback_ne_empty (p : String) :
    data_request_concern_fallback p ≠ "" := by
  intro h
  have hl := congrArg String.length h
  simp only [data_request_concern_fallback, String.length_append] at hl
  have h0 : ("When filling out a '" : String).length = 20 := rfl
  have h1 : ("" : String).length = 0 := rfl
  omega

/-- Concrete oversized `form_html` used to instantiate the truncation claim. -/
def sampleBigHtml : String := ⟨List.replicate 10001 'a'⟩

theorem sampleBigHtml_length : sampleBigHtml.length = 10001 := by
  show (List.replicate 10001 'a').length = 10001
  exact List.length_replicate _ _

/-- Concrete oversized cleaned policy text used to instantiate the
truncation claim. -/
def sampleBigPolicy : String := ⟨List.replicate 8001 'p'⟩

theorem sampleBigPolicy_length : sampleBigPolicy.length = 8001 := by
  show (List.replicate 8001 'p').length = 8001
  exact List.length_replicate _ _

/-- A string spliced between two others occurs in the result. -/
theorem middle_infix (a m b : String) : m.data <:+: (a ++ m ++ b).data :=
  ⟨a.data, b.data, rfl⟩

/-! ## Claim theorems -/

/-- Claim C1: for both fixed-prompt endpoints
(`POST /explain/insecure_submission`, `POST /explain/password_insecure_form`),
every exception `e` raised by the AI call produces a response whose
`explanation` is exactly the endpoint's hardcoded fallback string, whose
`success` is `true`, and whose `error` is the diagnostic prefix
`"AI service unavailable, using fallback explanation: "` followed by the
caught exception's text. -/
theorem C1_fixed_endpoint_fallbacks (r : ExplanationRequest) (e : String) :
    explain_insecure_submission r (fun _ => Except.error e) =
      ⟨insecure_submission_fallback, true,
        some ("AI service unavailable, using fallback explanation: " ++ e)⟩ ∧
    explain_password_insecure_form r (fun _ => Except.error e) =
      ⟨password_insecure_form_fallback, true,
        some ("AI service unavailable, using fallback explanation: " ++ e)⟩ :=
  ⟨rfl, rfl⟩

/-- Claim C2: for `POST /analyze_privacy_policy`, every HTTP-layer fetch
error (`httpx.HTTPError`: timeout, DNS/connection failure, non-2xx status)
makes the handler return at once with `success = false`, the static
"Unable to access the privacy policy..." explanation, and a diagnostic
embedding the fetch error. The result is the same for every AI adapter
`ai`, so the AI adapter is never consulted; the handler is a total
function, so no exception escapes it. -/
theorem C2_privacy_fetch_error (r : PrivacyPolicyRequest) (e : String)
    (ai : AICall → Except String String) :
    analyze_privacy_policy r (fun _ => FetchResult.httpError e) ai =
      ⟨unable_to_access_explanation, false, some ("HTTP error: " ++ e)⟩ :=
  rfl

/-- Claim C3: for `POST /analyze_privacy_policy`, every exception `e` raised
by the AI call after a successful page fetch yields the static manual-review
checklist fallback with `success = true` and an `error` equal to
`"Analysis service unavailable: "` followed by the exception's text. -/
theorem C3_privacy_ai_error (r : PrivacyPolicyRequest) (doc : HtmlNode)
    (e : String) :
    analyze_privacy_policy r (fun _ => FetchResult.success doc)
        (fun _ => Except.error e) =
      ⟨privacy_policy_fallback, true,
        some ("Analysis service unavailable: " ++ e)⟩ :=
  rfl

/-- Claim C4: for `POST /explain/data_request_concern`, a `form_html` longer
than 10,000 characters is replaced by its first 10,000 characters followed
by the marker `"... [HTML truncated]"` — so the truncated copy ends with the
marker and has length exactly `10000 + marker.length` — while a `form_html`
of at most 10,000 characters is passed on unchanged; the (possibly
truncated) copy is what the outgoing AI call embeds in its user message. -/
theorem C4_truncated_html_spec (s : String) :
    (s.length > MAX_HTML_LENGTH →
      truncated_html s = pyTake s MAX_HTML_LENGTH ++ "... [HTML truncated]" ∧
      "... [HTML truncated]".data <:+ (truncated_html s).data ∧
      (truncated_html s).length = MAX_HTML_LENGTH + "... [HTML truncated]".length) ∧
    (s.length ≤ MAX_HTML_LENGTH → truncated_html s = s) ∧
    (∀ p : String, ∃ sys : String,
      (data_request_concern_call ⟨p, s⟩).messages =
        [⟨"system", sys⟩,
         ⟨"user", data_request_user_content (truncated_html s)⟩]) := by
  refine ⟨fun h => ?_, fun h => ?_, fun p => ⟨_, rfl⟩⟩
  · have he : truncated_html s = pyTake s MAX_HTML_LENGTH ++ "... [HTML truncated]" := by
      unfold truncated_html
      rw [if_pos h]
    refine ⟨he, ?_, ?_⟩
    · rw [he]
      exact List.suffix_append _ _
    · rw [he]
      have ht : (pyTake s MAX_HTML_LENGTH).length = MAX_HTML_LENGTH := by
        show (s.data.take MAX_HTML_LENGTH).length = MAX_HTML_LENGTH
        rw [List.length_take]
        have hs : s.length = s.data.length := rfl
        omega
      rw [String.length_append, ht]
  · unfold truncated_html
    rw [if_neg (by omega)]

/-- Witness for C4 at concrete inputs: a 10,001-character `form_html` is
truncated, a short one is unchanged. -/
theorem C4_truncated_html_witness :
    truncated_html sampleBigHtml =
      pyTake sampleBigHtml MAX_HTML_LENGTH ++ "... [HTML truncated]" ∧
    truncated_html "<form></form>" = "<form></form>" :=
  ⟨((C4_truncated_html_spec sampleBigHtml).1
      (by rw [sampleBigHtml_length]; decide)).1,
   (C4_truncated_html_spec "<form></form>").2.1 (by decide)⟩

/-- Claim C5 as stated is refuted by a concrete run: when the AI call
succeeds with empty model text, `POST /explain/insecure_submission` returns
that empty string verbatim as `explanation`, so the `explanation` field is
not always non-empty. -/
theorem C5_counterexample :
    (explain_insecure_submission ⟨⟩ (fun _ => Except.ok "")).explanation = "" :=
  rfl

/-- Claim C5, amended: for all four POST analysis endpoints, every fallback
outcome (AI exception, fetch failure, or other fetch-stage exception)
carries a non-empty `explanation`; on AI success the `explanation` is the
model's returned text verbatim, hence non-empty exactly when that text is. -/
theorem C5_amended_nonempty_explanations (r : ExplanationRequest)
    (dr : DataRequestConcernRequest) (pr : PrivacyPolicyRequest)
    (doc : HtmlNode) (e c : String) (ai : AICall → Except String String) :
    (explain_insecure_submission r (fun _ => Except.error e)).explanation ≠ "" ∧
    (explain_password_insecure_form r (fun _ => Except.error e)).explanation ≠ "" ∧
    (explain_data_request_concern dr (fun _ => Except.error e)).explanation ≠ "" ∧
    (analyze_privacy_policy pr (fun _ => FetchResult.httpError e) ai).explanation ≠ "" ∧
    (analyze_privacy_policy pr (fun _ => FetchResult.otherError e) ai).explanation ≠ "" ∧
    (analyze_privacy_policy pr (fun _ => FetchResult.success doc)
        (fun _ => Except.error e)).explanation ≠ "" ∧
    (explain_insecure_submission r (fun _ => Except.ok c)).explanation = c ∧
    (explain_password_insecure_form r (fun _ => Except.ok c)).explanation = c ∧
    (explain_data_request_concern dr (fun _ => Except.ok c)).explanation = c ∧
    (analyze_privacy_policy pr (fun _ => FetchResult.success doc)
        (fun _ => Except.ok c)).explanation = c := by
  refine ⟨?_, ?_, ?_, ?_, ?_, ?_, rfl, rfl, rfl, rfl⟩
  · show insecure_submission_fallback ≠ ""
    decide
  · show password_insecure_form_fallback ≠ ""
    decide
  · exact data_request_concern_fallback_ne_empty dr.form_purpose
  · show unable_to_access_explanation ≠ ""
    decide
  · show privacy_policy_fallback ≠ ""
    decide
  · show privacy_policy_fallback ≠ ""
    decide

/-- Claim C6: for `POST /explain/data_request_concern`, on every exception
from the AI call the returned fallback explanation contains the caller's
`form_purpose` verbatim as a contiguous substring (it is interpolated into
the generic caution template), and `success` is `true`. -/
theorem C6_data_request_fallback_contains_purpose
    (r : DataRequestConcernRequest) (e : String) :
    r.form_purpose.data <:+:
      (explain_data_request_concern r (fun _ => Except.error e)).explanation.data ∧
    (explain_data_request_concern r (fun _ => Except.error e)).success = true := by
  constructor
  · show r.form_purpose.data <:+: (data_request_concern_fallback r.form_purpose).data
    unfold data_request_concern_fallback
    exact middle_infix _ _ _
  · rfl

/-- Claim C7: in `POST /analyze_privacy_policy`, cleaned extracted text
longer than 8,000 characters is replaced by its first 8,000 characters
followed by the marker `"... [content truncated]"` before being sent to the
AI prompt, while cleaned text of at most 8,000 characters is sent
unchanged. -/
theorem C7_truncate_policy_text_spec (c : String) :
    (c.length > 8000 →
      truncate_policy_text c = pyTake c 8000 ++ "... [content truncated]" ∧
      "... [content truncated]".data <:+ (truncate_policy_text c).data ∧
      (truncate_policy_text c).length = 8000 + "... [content truncated]".length) ∧
    (c.length ≤ 8000 → truncate_policy_text c = c) := by
  refine ⟨fun h => ?_, fun h => ?_⟩
  · have he : truncate_policy_text c = pyTake c 8000 ++ "... [content truncated]" := by
      unfold truncate_policy_text
      rw [if_pos h]
    refine ⟨he, ?_, ?_⟩
    · rw [he]
      exact List.suffix_append _ _
    · rw [he]
      have ht : (pyTake c 8000).length = 8000 := by
        show (c.data.take 8000).length = 8000
        rw [List.length_take]
        have hs : c.length = c.data.length := rfl
        omega
      rw [String.length_append, ht]
  · unfold truncate_policy_text
    rw [if_neg (by omega)]

/-- Witness for C7 at concrete inputs: 8,001-character cleaned text is
truncated, short text is unchanged. -/
theorem C7_truncate_policy_text_witness :
    truncate_policy_text sampleBigPolicy =
      pyTake sampleBigPolicy 8000 ++ "... [content truncated]" ∧
    truncate_policy_text "We collect emails." = "We collect emails." :=
  ⟨((C7_truncate_policy_text_spec sampleBigPolicy).1
      (by rw [sampleBigPolicy_length]; decide)).1,
   (C7_truncate_policy_text_spec "We collect emails.").2 (by decide)⟩

/-- Claim C8: for every fetched document, the text the privacy-policy
handler extracts after decomposing `script` and `style` elements equals the
text collected while skipping every `script`/`style` subtree — so the
contents of those elements never reach the AI prompt. -/
theorem C8_extract_text_excludes_script_style (doc : HtmlNode) :
    extract_text doc = getTextOutsideF ["script", "style"] [doc] :=
  getTextF_stripF _ _

/-- Claim C9: `GET /` returns the fixed payload
`{status: "healthy", service: "TRACE AI Backend", version: "1.0.0"}`;
`health_check` takes no input and does not depend on the AI adapter, so it
has no failure modes. -/
theorem C9_health_check_fixed :
    health_check =
      [("status", "healthy"), ("service", "TRACE AI Backend"),
       ("version", "1.0.0")] :=
  rfl

/-- Claim C10: for the two fixed-prompt endpoints, the outgoing AI call is
a literal constant — model `"gemini-2.5-flash-preview-05-20"`,
`max_tokens = 10000`, `temperature = 0.7`, fixed message list — independent
of the request body, so any two requests produce identical outgoing calls
and identical responses under the same AI adapter (two-run
noninterference with respect to the request). -/
theorem C10_fixed_endpoints_noninterference (r₁ r₂ : ExplanationRequest)
    (ai : AICall → Except String String) :
    insecure_submission_call r₁ = insecure_submission_call r₂ ∧
    password_insecure_form_call r₁ = password_insecure_form_call r₂ ∧
    explain_insecure_submission r₁ ai = explain_insecure_submission r₂ ai ∧
    explain_password_insecure_form r₁ ai = explain_password_insecure_form r₂ ai ∧
    (insecure_submission_call r₁).model = "gemini-2.5-flash-preview-05-20" ∧
    (insecure_submission_call r₁).max_tokens = 10000 ∧
    (insecure_submission_call r₁).temperature = 7/10 ∧
    (password_insecure_form_call r₁).model = "gemini-2.5-flash-preview-05-20" ∧
    (password_insecure_form_call r₁).max_tokens = 10000 ∧
    (password_insecure_form_call r₁).temperature = 7/10 :=
  ⟨rfl, rfl, rfl, rfl, rfl, rfl, rfl, rfl, rfl, rfl⟩

end TraceAI
